import Mathlib

/-!
Verification development for the boxing contest-resolution engine
(`boxing/models/ring_model.py`, with its collaborators in
`boxing/models/boxers_model.py` and `boxing/utils/api_utils.py`).

The Python code is shallowly embedded: machine floats are modelled by
exact rationals (and the logistic normalization by a real-valued
function), raised exceptions by `Except`-valued results paired with the
mutable state as it stands when the exception escapes, and the two
external collaborators (the relational store behind
`update_boxer_stats`, and the `random.org` fetch behind `get_random`)
by explicit data threaded through the functions.
-/

namespace Boxing

/-- Python exceptions raised by the embedded code: `ValueError msg` and
`TypeError msg`. -/
inductive PyErr where
  | valueError (msg : String)
  | typeError (msg : String)
deriving DecidableEq, Repr

/-- The `Boxer` dataclass of `boxers_model.py` (fields `id`, `name`,
`weight`, `height`, `reach`, `age`; the derived `weight_class` field is
computed by `get_weight_class` below and never read by the engine). -/
structure Boxer where
  id : Int
  name : String
  weight : Int
  height : Int
  reach : ℚ
  age : Int
deriving DecidableEq, Repr

/-- `get_weight_class` of `boxers_model.py`: weight-class name from
weight, `ValueError` below 125. -/
def get_weight_class (weight : Int) : Except PyErr String :=
  if weight ≥ 203 then Except.ok "HEAVYWEIGHT"
  else if weight ≥ 166 then Except.ok "MIDDLEWEIGHT"
  else if weight ≥ 133 then Except.ok "LIGHTWEIGHT"
  else if weight ≥ 125 then Except.ok "FEATHERWEIGHT"
  else Except.error (PyErr.valueError
    ("Invalid weight: " ++ toString weight ++ ". Weight must be at least 125."))

/-- The validation performed by `create_boxer` in `boxers_model.py`
(lines 54-66): non-empty name, weight at least 125, positive height and
reach, age between 18 and 40 inclusive. -/
def validBoxer (b : Boxer) : Prop :=
  b.name ≠ "" ∧ 125 ≤ b.weight ∧ 0 < b.height ∧ 0 < b.reach ∧ 18 ≤ b.age ∧ b.age ≤ 40

instance (b : Boxer) : Decidable (validBoxer b) := by
  unfold validBoxer; infer_instance

/-- One row of the `boxers` table, restricted to the columns
`update_boxer_stats` touches. -/
structure BoxerRow where
  id : Int
  fights : Nat
  wins : Nat
deriving DecidableEq, Repr

/-- The `SELECT id FROM boxers WHERE id = ?` existence check of
`update_boxer_stats`. -/
def boxer_exists (db : List BoxerRow) (boxer_id : Int) : Bool :=
  db.any (fun row => row.id == boxer_id)

/-- The row mutation of `update_boxer_stats`: a win increments `fights`
and `wins`, a loss increments `fights` only. -/
def apply_result (row : BoxerRow) (result : String) : BoxerRow :=
  if result == "win" then { row with fights := row.fights + 1, wins := row.wins + 1 }
  else { row with fights := row.fights + 1 }

/-- `update_boxer_stats` of `boxers_model.py`: rejects a result outside
the literal set, raises `ValueError` when the id is absent, otherwise
updates the matching row. -/
def update_boxer_stats (db : List BoxerRow) (boxer_id : Int) (result : String) :
    Except PyErr (List BoxerRow) :=
  if result ≠ "win" ∧ result ≠ "loss" then
    Except.error (PyErr.valueError
      ("Invalid result: " ++ result ++ ". Expected \x27win\x27 or \x27loss\x27."))
  else if !(boxer_exists db boxer_id) then
    Except.error (PyErr.valueError
      ("Boxer with ID " ++ toString boxer_id ++ " not found."))
  else
    Except.ok (db.map (fun row => if row.id == boxer_id then apply_result row result else row))

/-- An argument value offered to `RingModel.enter_ring`: either a proper
`Boxer` instance or a value of some other runtime type (named by the
Python type name that `type(boxer).__name__` would report, e.g. `dict`
for the raw mapping the tests pass). -/
inductive PyValue where
  | boxer (b : Boxer)
  | other (typeName : String)
deriving DecidableEq, Repr

/-- The `RingModel` class: its only attribute is the list `ring`. -/
structure RingModel where
  ring : List Boxer
deriving DecidableEq, Repr

/-- `RingModel.__init__`: an empty ring. -/
def RingModel.init : RingModel := ⟨[]⟩

/-- `RingModel.clear_ring` (lines 70-86): returns early when the ring is
already empty (leaving it as is, hence empty), otherwise clears it. -/
def RingModel.clear_ring (s : RingModel) : RingModel :=
  if s.ring.isEmpty then s else ⟨[]⟩

/-- `RingModel.enter_ring` (lines 88-110): checks `isinstance(boxer,
Boxer)` first (`TypeError` otherwise), then `len(self.ring) >= 2`
(`ValueError` "Ring is full" otherwise), then appends. The second
component is the ring state when the call returns or the exception
escapes. -/
def RingModel.enter_ring (s : RingModel) (v : PyValue) : Except PyErr Unit × RingModel :=
  match v with
  | PyValue.other tn =>
      (Except.error (PyErr.typeError
        ("Invalid type: Expected \x27Boxer\x27, got \x27" ++ tn ++ "\x27")), s)
  | PyValue.boxer b =>
      if 2 ≤ s.ring.length then
        (Except.error (PyErr.valueError "Ring is full, cannot add more boxers."), s)
      else
        (Except.ok (), ⟨s.ring ++ [b]⟩)

/-- `RingModel.get_boxers` (lines 115-131): the emptiness test in the
source is `if not self.ring: pass else: pass` — dead code — so the
function returns `self.ring` unconditionally, for an empty ring too
(its docstring and test #6 instead promise a `ValueError` there). -/
def RingModel.get_boxers (s : RingModel) : List Boxer :=
  s.ring

/-- `RingModel.get_fighting_skill` (lines 133-149); `self` is unused in
the source, so the embedding drops it. Exact rationals stand in for the
Python floats. -/
def get_fighting_skill (boxer : Boxer) : ℚ :=
  let age_modifier : ℚ := if boxer.age < 25 then -1 else if boxer.age > 35 then -2 else 0
  (boxer.weight : ℚ) * (boxer.name.length : ℚ) + boxer.reach / 10 + age_modifier

/-- The logistic normalization `1 / (1 + math.e ** (-delta))` computed
by `RingModel.fight` (line 52); `math.e ** x` is `Real.exp x`. -/
noncomputable def normalized_delta (delta : ℚ) : ℝ :=
  1 / (1 + Real.exp (-(delta : ℝ)))

/-- Number of required positional parameters of `get_random` in
`boxing/utils/api_utils.py` (line 17): `def get_random(max: int)` — one
parameter, no default. -/
def get_random_param_count : Nat := 1

/-- Number of arguments at the call site `random_number = get_random()`
inside `RingModel.fight` (`ring_model.py` line 54): zero. -/
def fight_get_random_arg_count : Nat := 0

/-- Python call semantics for `get_random`: a call with the wrong number
of positional arguments raises `TypeError` before the body runs; a call
with the right number runs the body, whose successful outcome (an
external HTTP fetch) is modelled by the injected `draw` value. -/
def call_get_random (nargs : Nat) (draw : ℝ) : Except PyErr ℝ :=
  if nargs = get_random_param_count then Except.ok draw
  else Except.error (PyErr.typeError
    "get_random() missing 1 required positional argument: \x27max\x27")

/-- `RingModel.fight` (lines 33-68). `randomResult` is the outcome of
the `get_random()` expression at line 54 (see `call_get_random`). The
result tuple carries, in order: the returned winner name or the escaped
exception, the ring state, the database state, and the trace of
`update_boxer_stats` calls attempted (id paired with the result
string), in call order. The `[boxer_1, boxer_2]` pattern mirrors the
tuple unpacking `boxer_1, boxer_2 = self.get_boxers()`, which raises
`ValueError` on any ring longer than two. -/
noncomputable def RingModel.fight (s : RingModel) (db : List BoxerRow)
    (randomResult : Except PyErr ℝ) :
    Except PyErr String × RingModel × List BoxerRow × List (Int × String) :=
  if s.ring.length < 2 then
    (Except.error (PyErr.valueError "There must be two boxers to start a fight."), s, db, [])
  else
    match s.get_boxers with
    | [boxer_1, boxer_2] =>
        let skill_1 := get_fighting_skill boxer_1
        let skill_2 := get_fighting_skill boxer_2
        let delta := |skill_1 - skill_2|
        let nd := normalized_delta delta
        match randomResult with
        | Except.error e => (Except.error e, s, db, [])
        | Except.ok random_number =>
            let winner_loser :=
              if random_number < nd then (boxer_1, boxer_2) else (boxer_2, boxer_1)
            let winner := winner_loser.1
            let loser := winner_loser.2
            match update_boxer_stats db winner.id "win" with
            | Except.error e => (Except.error e, s, db, [(winner.id, "win")])
            | Except.ok db_1 =>
                match update_boxer_stats db_1 loser.id "loss" with
                | Except.error e =>
                    (Except.error e, s, db_1, [(winner.id, "win"), (loser.id, "loss")])
                | Except.ok db_2 =>
                    (Except.ok winner.name, s.clear_ring, db_2,
                      [(winner.id, "win"), (loser.id, "loss")])
    | _ =>
        (Except.error (PyErr.valueError "too many values to unpack (expected 2)"), s, db, [])

/-- States of a `RingModel` reachable from construction through the
public operations (`enter_ring` with any argument, `fight` against any
database and any random outcome, `clear_ring`; `get_boxers` and
`get_fighting_skill` never change the state). The state recorded for a
failing call is the state at the moment the exception escapes. -/
inductive Reachable : RingModel → Prop where
  | init : Reachable RingModel.init
  | enter (s : RingModel) (v : PyValue) : Reachable s → Reachable (s.enter_ring v).2
  | fight (s : RingModel) (db : List BoxerRow) (rr : Except PyErr ℝ) :
      Reachable s → Reachable (s.fight db rr).2.1
  | clear (s : RingModel) : Reachable s → Reachable s.clear_ring

/-! ### Sample data (the fixtures of `tests/test_ring_model.py`) -/

/-- The `sample_boxer1` fixture: `Boxer(1, "Boxer One", 150, 62, 10.9, 18)`. -/
def sample_boxer1 : Boxer := ⟨1, "Boxer One", 150, 62, 109 / 10, 18⟩

/-- The `sample_boxer2` fixture: `Boxer(2, "Boxer Two", 220, 52, 18.0, 20)`. -/
def sample_boxer2 : Boxer := ⟨2, "Boxer Two", 220, 52, 18, 20⟩

/-- A database holding rows for both sample boxers. -/
def sample_db : List BoxerRow := [⟨1, 0, 0⟩, ⟨2, 0, 0⟩]

/-- A database holding a row for `sample_boxer1` only. -/
def sample_db1 : List BoxerRow := [⟨1, 0, 0⟩]

/-! ### Helper lemmas -/

lemma normalized_delta_zero : normalized_delta 0 = 1 / 2 := by
  unfold normalized_delta
  norm_num [Real.exp_zero]

lemma normalized_delta_lt_one (d : ℚ) : normalized_delta d < 1 := by
  unfold normalized_delta
  have h : (0 : ℝ) < Real.exp (-(d : ℝ)) := Real.exp_pos _
  rw [div_lt_one (by linarith)]
  linarith

lemma half_lt_normalized_delta (d : ℚ) (hd : 0 < d) : 1 / 2 < normalized_delta d := by
  unfold normalized_delta
  have h0 : (0 : ℝ) < Real.exp (-(d : ℝ)) := Real.exp_pos _
  have h1 : Real.exp (-(d : ℝ)) < 1 := by
    rw [Real.exp_lt_one_iff]
    have : (0 : ℝ) < (d : ℝ) := by exact_mod_cast hd
    linarith
  rw [lt_div_iff₀ (by linarith)]
  linarith

lemma apply_result_id (row : BoxerRow) (result : String) :
    (apply_result row result).id = row.id := by
  unfold apply_result
  split <;> rfl

lemma boxer_exists_update (db : List BoxerRow) (i j : Int) (result : String) :
    boxer_exists (db.map (fun row => if row.id == i then apply_result row result else row)) j =
      boxer_exists db j := by
  unfold boxer_exists
  rw [List.any_map]
  congr 1
  funext row
  simp only [Function.comp]
  split <;> simp [apply_result_id]

lemma update_boxer_stats_ok (db : List BoxerRow) (i : Int) (result : String)
    (hres : result = "win" ∨ result = "loss") (hex : boxer_exists db i = true) :
    update_boxer_stats db i result =
      Except.ok (db.map (fun row => if row.id == i then apply_result row result else row)) := by
  unfold update_boxer_stats
  rcases hres with h | h <;> subst h <;> simp [hex]

lemma update_boxer_stats_missing (db : List BoxerRow) (i : Int) (result : String)
    (hres : result = "win" ∨ result = "loss") (hex : boxer_exists db i = false) :
    update_boxer_stats db i result =
      Except.error (PyErr.valueError ("Boxer with ID " ++ toString i ++ " not found.")) := by
  unfold update_boxer_stats
  rcases hres with h | h <;> subst h <;> simp [hex]

lemma clear_ring_ring (s : RingModel) : s.clear_ring.ring = [] := by
  unfold RingModel.clear_ring
  split
  · next h => exact List.isEmpty_iff.mp h
  · rfl

lemma fight_two_lt (c1 c2 : Boxer) (db : List BoxerRow) (r : ℝ)
    (hr : r < normalized_delta |get_fighting_skill c1 - get_fighting_skill c2|) :
    RingModel.fight ⟨[c1, c2]⟩ db (Except.ok r) =
      (match update_boxer_stats db c1.id "win" with
       | Except.error e => (Except.error e, RingModel.mk [c1, c2], db, [(c1.id, "win")])
       | Except.ok db_1 =>
         match update_boxer_stats db_1 c2.id "loss" with
         | Except.error e =>
             (Except.error e, RingModel.mk [c1, c2], db_1, [(c1.id, "win"), (c2.id, "loss")])
         | Except.ok db_2 =>
             (Except.ok c1.name, RingModel.mk [], db_2, [(c1.id, "win"), (c2.id, "loss")])) := by
  unfold RingModel.fight
  simp [RingModel.get_boxers, RingModel.clear_ring, hr]

lemma fight_two_ge (c1 c2 : Boxer) (db : List BoxerRow) (r : ℝ)
    (hr : ¬ r < normalized_delta |get_fighting_skill c1 - get_fighting_skill c2|) :
    RingModel.fight ⟨[c1, c2]⟩ db (Except.ok r) =
      (match update_boxer_stats db c2.id "win" with
       | Except.error e => (Except.error e, RingModel.mk [c1, c2], db, [(c2.id, "win")])
       | Except.ok db_1 =>
         match update_boxer_stats db_1 c1.id "loss" with
         | Except.error e =>
             (Except.error e, RingModel.mk [c1, c2], db_1, [(c2.id, "win"), (c1.id, "loss")])
         | Except.ok db_2 =>
             (Except.ok c2.name, RingModel.mk [], db_2, [(c2.id, "win"), (c1.id, "loss")])) := by
  unfold RingModel.fight
  simp [RingModel.get_boxers, RingModel.clear_ring, hr]

lemma fight_short (s : RingModel) (db : List BoxerRow) (rr : Except PyErr ℝ)
    (h : s.ring.length < 2) :
    RingModel.fight s db rr =
      (Except.error (PyErr.valueError "There must be two boxers to start a fight."), s, db, []) := by
  unfold RingModel.fight
  simp [h]

lemma fight_ok_shape (c1 c2 : Boxer) (db : List BoxerRow) (rr : Except PyErr ℝ)
    (nm : String) (s2 : RingModel) (db2 : List BoxerRow) (t : List (Int × String))
    (h : RingModel.fight ⟨[c1, c2]⟩ db rr = (Except.ok nm, s2, db2, t)) :
    ∃ w l, ((w = c1 ∧ l = c2) ∨ (w = c2 ∧ l = c1)) ∧ nm = w.name ∧
      t = [(w.id, "win"), (l.id, "loss")] ∧ s2 = ⟨[]⟩ := by
  cases rr with
  | error e =>
    unfold RingModel.fight at h
    simp [RingModel.get_boxers] at h
  | ok r =>
    by_cases hr : r < normalized_delta |get_fighting_skill c1 - get_fighting_skill c2|
    · rw [fight_two_lt c1 c2 db r hr] at h
      split at h
      · simp at h
      · split at h
        · simp at h
        · simp only [Prod.mk.injEq, Except.ok.injEq] at h
          exact ⟨c1, c2, Or.inl ⟨rfl, rfl⟩, h.1.symm, h.2.2.2.symm, h.2.1.symm⟩
    · rw [fight_two_ge c1 c2 db r hr] at h
      split at h
      · simp at h
      · split at h
        · simp at h
        · simp only [Prod.mk.injEq, Except.ok.injEq] at h
          exact ⟨c2, c1, Or.inr ⟨rfl, rfl⟩, h.1.symm, h.2.2.2.symm, h.2.1.symm⟩

lemma fight_err_shape (c1 c2 : Boxer) (db : List BoxerRow) (r : ℝ) (e : PyErr)
    (s2 : RingModel) (db2 : List BoxerRow) (t : List (Int × String))
    (h : RingModel.fight ⟨[c1, c2]⟩ db (Except.ok r) = (Except.error e, s2, db2, t)) :
    s2 = ⟨[c1, c2]⟩ ∧
    ∃ w l, ((w = c1 ∧ l = c2) ∨ (w = c2 ∧ l = c1)) ∧
      (update_boxer_stats db w.id "win" = Except.error e ∨
       ∃ db_1, update_boxer_stats db w.id "win" = Except.ok db_1 ∧
         update_boxer_stats db_1 l.id "loss" = Except.error e) := by
  by_cases hr : r < normalized_delta |get_fighting_skill c1 - get_fighting_skill c2|
  · rw [fight_two_lt c1 c2 db r hr] at h
    split at h
    · next e1 heq1 =>
        simp only [Prod.mk.injEq, Except.error.injEq] at h
        exact ⟨h.2.1.symm, c1, c2, Or.inl ⟨rfl, rfl⟩, Or.inl (h.1 ▸ heq1)⟩
    · next db_1 heq1 =>
        split at h
        · next e2 heq2 =>
            simp only [Prod.mk.injEq, Except.error.injEq] at h
            exact ⟨h.2.1.symm, c1, c2, Or.inl ⟨rfl, rfl⟩, Or.inr ⟨db_1, heq1, h.1 ▸ heq2⟩⟩
        · simp at h
  · rw [fight_two_ge c1 c2 db r hr] at h
    split at h
    · next e1 heq1 =>
        simp only [Prod.mk.injEq, Except.error.injEq] at h
        exact ⟨h.2.1.symm, c2, c1, Or.inr ⟨rfl, rfl⟩, Or.inl (h.1 ▸ heq1)⟩
    · next db_1 heq1 =>
        split at h
        · next e2 heq2 =>
            simp only [Prod.mk.injEq, Except.error.injEq] at h
            exact ⟨h.2.1.symm, c2, c1, Or.inr ⟨rfl, rfl⟩, Or.inr ⟨db_1, heq1, h.1 ▸ heq2⟩⟩
        · simp at h

lemma sample_draw_lt :
    (2 / 5 : ℝ) <
      normalized_delta |get_fighting_skill sample_boxer1 - get_fighting_skill sample_boxer2| := by
  have h1 : (0 : ℚ) < |get_fighting_skill sample_boxer1 - get_fighting_skill sample_boxer2| := by
    have hlen1 : ("Boxer One" : String).length = 9 := rfl
    have hlen2 : ("Boxer Two" : String).length = 9 := rfl
    norm_num [get_fighting_skill, sample_boxer1, sample_boxer2, hlen1, hlen2]
  have h2 := half_lt_normalized_delta _ h1
  linarith

lemma fight_concrete_eval :
    RingModel.fight ⟨[sample_boxer1, sample_boxer2]⟩ sample_db (Except.ok (2 / 5)) =
      (Except.ok "Boxer One", ⟨[]⟩, [⟨1, 1, 1⟩, ⟨2, 1, 0⟩], [(1, "win"), (2, "loss")]) := by
  rw [fight_two_lt _ _ _ _ sample_draw_lt]
  rfl

lemma fight_concrete_fail :
    RingModel.fight ⟨[sample_boxer1, sample_boxer2]⟩ sample_db1 (Except.ok (2 / 5)) =
      (Except.error (PyErr.valueError "Boxer with ID 2 not found."),
        ⟨[sample_boxer1, sample_boxer2]⟩, [⟨1, 1, 1⟩], [(1, "win"), (2, "loss")]) := by
  rw [fight_two_lt _ _ _ _ sample_draw_lt]
  rfl

lemma fight_state (s : RingModel) (db : List BoxerRow) (rr : Except PyErr ℝ) :
    (RingModel.fight s db rr).2.1 = s ∨ (RingModel.fight s db rr).2.1 = s.clear_ring := by
  obtain ⟨ring⟩ := s
  rcases ring with _ | ⟨c1, _ | ⟨c2, _ | ⟨c3, rest⟩⟩⟩
  · rw [fight_short ⟨[]⟩ db rr (by simp)]
    left
    rfl
  · rw [fight_short ⟨[c1]⟩ db rr (by simp)]
    left
    rfl
  · cases rr with
    | error e =>
      left
      unfold RingModel.fight
      simp [RingModel.get_boxers]
    | ok r =>
      by_cases hr : r < normalized_delta |get_fighting_skill c1 - get_fighting_skill c2|
      · rw [fight_two_lt c1 c2 db r hr]
        split
        · left; rfl
        · split
          · left; rfl
          · right; rfl
      · rw [fight_two_ge c1 c2 db r hr]
        split
        · left; rfl
        · split
          · left; rfl
          · right; rfl
  · left
    unfold RingModel.fight
    simp only [RingModel.get_boxers]
    split <;> rfl

lemma enter_ring_length (s : RingModel) (v : PyValue) (h : s.ring.length ≤ 2) :
    (s.enter_ring v).2.ring.length ≤ 2 := by
  cases v with
  | other tn => simpa [RingModel.enter_ring] using h
  | boxer b =>
    by_cases h2 : 2 ≤ s.ring.length
    · simp only [RingModel.enter_ring, if_pos h2]
      simpa using h
    · simp only [RingModel.enter_ring, if_neg h2]
      simp
      omega

/-! ### Claim theorems -/

/-- C1: for every valid contestant (non-empty name, weight at least 125,
positive height and reach, age 18 to 40), the fighting skill equals
weight * length(name) + reach / 10 + ageModifier, where ageModifier is -1
below age 25, -2 above age 35 and 0 otherwise; in particular a contestant
with name length 9, weight 150, reach 10.9 and age 18 has skill exactly
1350.09. -/
theorem computeSkill_formula :
    (∀ b : Boxer, validBoxer b →
      get_fighting_skill b =
        (b.weight : ℚ) * (b.name.length : ℚ) + b.reach / 10 +
          (if b.age < 25 then -1 else if b.age > 35 then -2 else 0)) ∧
    (∀ b : Boxer, validBoxer b →
      b.name.length = 9 → b.weight = 150 → b.reach = 109 / 10 → b.age = 18 →
      get_fighting_skill b = 135009 / 100) := by
  constructor
  · intro b _
    rfl
  · intro b _ hlen hw hr ha
    unfold get_fighting_skill
    rw [hlen, hw, hr, ha]
    norm_num

/-- C1 witness: the sample contestant Boxer(1, "Boxer One", 150, 62, 10.9, 18)
is valid and its skill is exactly 1350.09. -/
theorem computeSkill_formula_witness :
    get_fighting_skill sample_boxer1 = 135009 / 100 :=
  computeSkill_formula.2 sample_boxer1
    (by norm_num [validBoxer, sample_boxer1]; decide) rfl rfl rfl rfl

/-- C2: on a pool holding c1 (added first) and c2 (added second), both known to
the recording database, a draw strictly below the normalized probability makes
c1 the winner and c2 the loser, and a draw at or above it makes c2 the winner
and c1 the loser. -/
theorem fight_selects_by_draw (c1 c2 : Boxer) (db : List BoxerRow) (r : ℝ)
    (h1 : boxer_exists db c1.id = true) (h2 : boxer_exists db c2.id = true) :
    (r < normalized_delta |get_fighting_skill c1 - get_fighting_skill c2| →
      ∃ db2, RingModel.fight ⟨[c1, c2]⟩ db (Except.ok r) =
        (Except.ok c1.name, ⟨[]⟩, db2, [(c1.id, "win"), (c2.id, "loss")])) ∧
    (¬ r < normalized_delta |get_fighting_skill c1 - get_fighting_skill c2| →
      ∃ db2, RingModel.fight ⟨[c1, c2]⟩ db (Except.ok r) =
        (Except.ok c2.name, ⟨[]⟩, db2, [(c2.id, "win"), (c1.id, "loss")])) := by
  constructor
  · intro hr
    have e1 := update_boxer_stats_ok db c1.id "win" (Or.inl rfl) h1
    have hex2 : boxer_exists
        (db.map (fun row => if row.id == c1.id then apply_result row "win" else row)) c2.id =
          true := by
      rw [boxer_exists_update]
      exact h2
    have e2 := update_boxer_stats_ok _ c2.id "loss" (Or.inr rfl) hex2
    refine ⟨List.map (fun row => if row.id == c2.id then apply_result row "loss" else row)
        (List.map (fun row => if row.id == c1.id then apply_result row "win" else row) db), ?_⟩
    rw [fight_two_lt c1 c2 db r hr]
    simp only [e1, e2]
  · intro hr
    have e1 := update_boxer_stats_ok db c2.id "win" (Or.inl rfl) h2
    have hex2 : boxer_exists
        (db.map (fun row => if row.id == c2.id then apply_result row "win" else row)) c1.id =
          true := by
      rw [boxer_exists_update]
      exact h1
    have e2 := update_boxer_stats_ok _ c1.id "loss" (Or.inr rfl) hex2
    refine ⟨List.map (fun row => if row.id == c1.id then apply_result row "loss" else row)
        (List.map (fun row => if row.id == c2.id then apply_result row "win" else row) db), ?_⟩
    rw [fight_two_ge c1 c2 db r hr]
    simp only [e1, e2]

/-- C2 witness: with the two sample contestants and a draw of 0.4 (below the
normalized probability of their positive skill gap), the first-added contestant
wins and the second loses. -/
theorem fight_selects_by_draw_witness :
    ∃ db2, RingModel.fight ⟨[sample_boxer1, sample_boxer2]⟩ sample_db (Except.ok (2 / 5)) =
      (Except.ok sample_boxer1.name, ⟨[]⟩, db2,
        [(sample_boxer1.id, "win"), (sample_boxer2.id, "loss")]) :=
  (fight_selects_by_draw sample_boxer1 sample_boxer2 sample_db (2 / 5)
    (by decide) (by decide)).1 sample_draw_lt

/-- C3: the draw step of fight invokes get_random with zero arguments while its
declared signature requires one (max); for every pool of exactly two
contestants the call therefore raises TypeError, and fight fails before the
winner comparison, with no outcome-recording call attempted and pool and
database untouched. -/
theorem fight_draw_arity_error (c1 c2 : Boxer) (db : List BoxerRow) (draw : ℝ) :
    call_get_random fight_get_random_arg_count draw =
      Except.error (PyErr.typeError
        "get_random() missing 1 required positional argument: \x27max\x27") ∧
    RingModel.fight ⟨[c1, c2]⟩ db (call_get_random fight_get_random_arg_count draw) =
      (Except.error (PyErr.typeError
        "get_random() missing 1 required positional argument: \x27max\x27"),
        ⟨[c1, c2]⟩, db, []) := by
  constructor
  · rfl
  · unfold RingModel.fight
    simp [RingModel.get_boxers, call_get_random, fight_get_random_arg_count,
      get_random_param_count]

/-- C4: every successful fight on a two-contestant pool records the winner's
win first, then the loser's loss, resets the pool to empty and returns the
winner's name. -/
theorem fight_success_effects (c1 c2 : Boxer) (db : List BoxerRow)
    (rr : Except PyErr ℝ) (nm : String) (s2 : RingModel) (db2 : List BoxerRow)
    (t : List (Int × String))
    (h : RingModel.fight ⟨[c1, c2]⟩ db rr = (Except.ok nm, s2, db2, t)) :
    ∃ w l, ((w = c1 ∧ l = c2) ∨ (w = c2 ∧ l = c1)) ∧ nm = w.name ∧
      t = [(w.id, "win"), (l.id, "loss")] ∧ s2.ring = [] := by
  obtain ⟨w, l, hwl, hnm, ht, hs⟩ := fight_ok_shape c1 c2 db rr nm s2 db2 t h
  exact ⟨w, l, hwl, hnm, ht, by rw [hs]⟩

/-- C4 witness: the concrete successful fight of the two sample contestants
records (1, win) then (2, loss), empties the pool and returns "Boxer One". -/
theorem fight_success_effects_witness :
    ∃ w l, ((w = sample_boxer1 ∧ l = sample_boxer2) ∨
        (w = sample_boxer2 ∧ l = sample_boxer1)) ∧
      "Boxer One" = w.name ∧
      ([((1 : Int), "win"), (2, "loss")] : List (Int × String)) =
        [(w.id, "win"), (l.id, "loss")] ∧
      (RingModel.mk []).ring = [] :=
  fight_success_effects sample_boxer1 sample_boxer2 sample_db (Except.ok (2 / 5))
    "Boxer One" ⟨[]⟩ [⟨1, 1, 1⟩, ⟨2, 1, 0⟩] [(1, "win"), (2, "loss")] fight_concrete_eval

/-- C5: when either outcome-recording call fails during a fight on a
two-contestant pool, the collaborator's error propagates unchanged to the
caller and the pool is not reset: it still holds exactly the two contestants it
held before. -/
theorem fight_record_failure_preserves_pool (c1 c2 : Boxer) (db : List BoxerRow)
    (r : ℝ) (e : PyErr) (s2 : RingModel) (db2 : List BoxerRow) (t : List (Int × String))
    (h : RingModel.fight ⟨[c1, c2]⟩ db (Except.ok r) = (Except.error e, s2, db2, t)) :
    s2.ring = [c1, c2] ∧
    ∃ w l, ((w = c1 ∧ l = c2) ∨ (w = c2 ∧ l = c1)) ∧
      (update_boxer_stats db w.id "win" = Except.error e ∨
       ∃ db_1, update_boxer_stats db w.id "win" = Except.ok db_1 ∧
         update_boxer_stats db_1 l.id "loss" = Except.error e) := by
  obtain ⟨hs, rest⟩ := fight_err_shape c1 c2 db r e s2 db2 t h
  exact ⟨by rw [hs], rest⟩

/-- C5 witness: with a database lacking the second sample contestant, the
concrete fight fails on the loss-recording call, the not-found error
propagates, and the pool still holds both contestants. -/
theorem fight_record_failure_preserves_pool_witness :
    (RingModel.mk [sample_boxer1, sample_boxer2]).ring = [sample_boxer1, sample_boxer2] ∧
    ∃ w l, ((w = sample_boxer1 ∧ l = sample_boxer2) ∨
        (w = sample_boxer2 ∧ l = sample_boxer1)) ∧
      (update_boxer_stats sample_db1 w.id "win" =
          Except.error (PyErr.valueError "Boxer with ID 2 not found.") ∨
       ∃ db_1, update_boxer_stats sample_db1 w.id "win" = Except.ok db_1 ∧
         update_boxer_stats db_1 l.id "loss" =
           Except.error (PyErr.valueError "Boxer with ID 2 not found.")) :=
  fight_record_failure_preserves_pool sample_boxer1 sample_boxer2 sample_db1 (2 / 5)
    (PyErr.valueError "Boxer with ID 2 not found.") ⟨[sample_boxer1, sample_boxer2]⟩
    [⟨1, 1, 1⟩] [(1, "win"), (2, "loss")] fight_concrete_fail

/-- C6: a fight on a pool holding fewer than two contestants fails with the
"must have two boxers" ValueError and leaves the pool (and database) unchanged;
and after any successful fight — which resets the pool to empty — an immediate
second fight fails with that same error. -/
theorem fight_insufficient_contestants :
    (∀ (s : RingModel) (db : List BoxerRow) (rr : Except PyErr ℝ), s.ring.length < 2 →
      RingModel.fight s db rr =
        (Except.error (PyErr.valueError "There must be two boxers to start a fight."),
          s, db, [])) ∧
    (∀ (c1 c2 : Boxer) (db : List BoxerRow) (rr rr2 : Except PyErr ℝ)
        (nm : String) (s2 : RingModel) (db2 : List BoxerRow) (t : List (Int × String)),
      RingModel.fight ⟨[c1, c2]⟩ db rr = (Except.ok nm, s2, db2, t) →
      ∀ db3, RingModel.fight s2 db3 rr2 =
        (Except.error (PyErr.valueError "There must be two boxers to start a fight."),
          s2, db3, [])) := by
  constructor
  · exact fight_short
  · intro c1 c2 db rr rr2 nm s2 db2 t h db3
    obtain ⟨w, l, _, _, _, hs⟩ := fight_ok_shape c1 c2 db rr nm s2 db2 t h
    subst hs
    exact fight_short _ db3 rr2 (by simp)

/-- C6 witness: a fight on the empty initial pool fails with the two-boxers
error, and a second fight right after the concrete successful sample fight
fails the same way. -/
theorem fight_insufficient_contestants_witness :
    RingModel.fight RingModel.init [] (Except.ok 0) =
      (Except.error (PyErr.valueError "There must be two boxers to start a fight."),
        RingModel.init, [], []) ∧
    RingModel.fight ⟨[]⟩ [] (Except.ok 0) =
      (Except.error (PyErr.valueError "There must be two boxers to start a fight."),
        ⟨[]⟩, [], []) :=
  ⟨fight_insufficient_contestants.1 RingModel.init [] (Except.ok 0) (by decide),
   fight_insufficient_contestants.2 sample_boxer1 sample_boxer2 sample_db (Except.ok (2 / 5))
     (Except.ok 0) "Boxer One" ⟨[]⟩ [⟨1, 1, 1⟩, ⟨2, 1, 0⟩] [(1, "win"), (2, "loss")]
     fight_concrete_eval []⟩

/-- C7: enter_ring checks its preconditions in order: a non-Boxer value fails
with TypeError regardless of pool size; a proper Boxer offered to a pool
already holding two contestants fails with the capacity ValueError and the pool
keeps exactly its prior entries; otherwise the boxer is appended, preserving
insertion order. -/
theorem enter_ring_precondition_order :
    (∀ (s : RingModel) (tn : String),
      s.enter_ring (PyValue.other tn) =
        (Except.error (PyErr.typeError
          ("Invalid type: Expected \x27Boxer\x27, got \x27" ++ tn ++ "\x27")), s)) ∧
    (∀ (s : RingModel) (b : Boxer), s.ring.length = 2 →
      s.enter_ring (PyValue.boxer b) =
        (Except.error (PyErr.valueError "Ring is full, cannot add more boxers."), s)) ∧
    (∀ (s : RingModel) (b : Boxer), s.ring.length < 2 →
      s.enter_ring (PyValue.boxer b) = (Except.ok (), ⟨s.ring ++ [b]⟩)) := by
  refine ⟨fun s tn => rfl, fun s b h => ?_, fun s b h => ?_⟩
  · simp only [RingModel.enter_ring, if_pos (by omega : 2 ≤ s.ring.length)]
  · simp only [RingModel.enter_ring, if_neg (by omega : ¬ 2 ≤ s.ring.length)]

/-- C7 witness: a raw dict is rejected with TypeError on the empty pool; the
first sample boxer is rejected with the capacity error on a full pool, which
stays intact; and adding to the empty pool appends. -/
theorem enter_ring_precondition_order_witness :
    RingModel.init.enter_ring (PyValue.other "dict") =
      (Except.error (PyErr.typeError
        ("Invalid type: Expected \x27Boxer\x27, got \x27" ++ "dict" ++ "\x27")),
        RingModel.init) ∧
    (RingModel.mk [sample_boxer1, sample_boxer2]).enter_ring (PyValue.boxer sample_boxer1) =
      (Except.error (PyErr.valueError "Ring is full, cannot add more boxers."),
        ⟨[sample_boxer1, sample_boxer2]⟩) ∧
    RingModel.init.enter_ring (PyValue.boxer sample_boxer1) =
      (Except.ok (), ⟨[sample_boxer1]⟩) :=
  ⟨enter_ring_precondition_order.1 RingModel.init "dict",
   enter_ring_precondition_order.2.1 ⟨[sample_boxer1, sample_boxer2]⟩ sample_boxer1 rfl,
   enter_ring_precondition_order.2.2 RingModel.init sample_boxer1 (by decide)⟩

/-- C8 (code bug): get_boxers on an empty pool returns the empty list without
raising any error — the emptiness check in the source is dead code, although
its docstring and test #6 promise a ValueError "Ring is empty" — and on every
pool it returns the contents in insertion order without mutating state. -/
theorem get_boxers_no_empty_check :
    RingModel.init.get_boxers = [] ∧ ∀ s : RingModel, s.get_boxers = s.ring :=
  ⟨rfl, fun _ => rfl⟩

/-- C9: with delta the absolute difference of two skill values, the normalized
probability 1 / (1 + e^(-delta)) equals exactly 1/2 when delta is 0 and lies
strictly between 1/2 and 1 when delta is positive. -/
theorem normalized_delta_range (skill_1 skill_2 : ℚ) :
    (|skill_1 - skill_2| = 0 →
      normalized_delta |skill_1 - skill_2| = 1 / 2) ∧
    (0 < |skill_1 - skill_2| →
      1 / 2 < normalized_delta |skill_1 - skill_2| ∧
        normalized_delta |skill_1 - skill_2| < 1) := by
  constructor
  · intro h
    rw [h]
    exact normalized_delta_zero
  · intro h
    exact ⟨half_lt_normalized_delta _ h, normalized_delta_lt_one _⟩

/-- C9 witness: at equal skills the probability is exactly 1/2, and at skills 1
and 0 it lies strictly between 1/2 and 1. -/
theorem normalized_delta_range_witness :
    normalized_delta |(0 : ℚ) - 0| = 1 / 2 ∧
    (1 / 2 < normalized_delta |(1 : ℚ) - 0| ∧ normalized_delta |(1 : ℚ) - 0| < 1) :=
  ⟨(normalized_delta_range 0 0).1 (by norm_num),
   (normalized_delta_range 1 0).2 (by norm_num)⟩

/-- C10: every state reachable from the initial empty pool through enter_ring,
get_boxers, fight and clear_ring holds at most two contestants. -/
theorem ring_size_invariant (s : RingModel) (h : Reachable s) : s.ring.length ≤ 2 := by
  induction h with
  | init => simp [RingModel.init]
  | enter s v _ ih => exact enter_ring_length s v ih
  | fight s db rr _ ih =>
    rcases fight_state s db rr with heq | heq <;> rw [heq]
    · exact ih
    · simp [clear_ring_ring]
  | clear s _ _ => simp [clear_ring_ring]

/-- C10 witness: the initial state is reachable and its pool size is within the
bound. -/
theorem ring_size_invariant_witness : RingModel.init.ring.length ≤ 2 :=
  ring_size_invariant RingModel.init Reachable.init

end Boxing
